import Mathlib

/-!
# Verification of the Abrox chat-simulation core

Shallow embedding of the deterministic message-pool generator
(`src/message-pool.js`), the playback scheduler (`simulation-engine.js`,
shipped as `src/unnamed/part_000`) and the synthetic-people presence step
(`src/message.js`, `SyntheticPeople`), together with proofs settling the
frozen claims about them.

Modelling conventions:

* JavaScript numbers that the code only ever uses as 32-bit PRNG states,
  indices and sizes are modelled as `Nat`; epoch-millisecond timestamps as
  `Int`; probability fractions as `Rat`.
* `rnd()` values are the raw 32-bit xorshift states `x`; the JS float
  `x / 2^32` is compared against a literal `c` via the exact rational
  comparison `(x : Rat) < c * 2^32`.  For every literal the source uses
  (`0.42`, `0.72`, `0.87`, `0.13`, `0.11`, `0.06`, `0.04`, `0.0008`, `1.0`)
  the set of 32-bit states below the float64 value of the literal coincides
  with the set below the exact decimal, so this is faithful for every
  possible draw.
* `Math.floor(rnd() * n)` for the small `n` in this file is exact in
  float64, hence modelled as `x * n / 2^32` on `Nat`.
* Timestamp arithmetic is modelled with exact rationals; the JS float64
  computation agrees except for sub-microsecond rounding that no claim
  depends on.
* JS truthiness fallbacks `a || b` on numbers conflate `0` and absent, and
  on strings conflate `""` and absent; the model mirrors this with
  `jsOrN` / `jsOrQ` / `jsOr`.
-/

/- Batteries marks the `Rat` field operations `@[irreducible]`; restoring
the default reducibility lets concrete instances of the model evaluate
inside proofs.  This does not change any definition or proof obligation. -/
set_option allowUnsafeReducibility true
attribute [semireducible] Rat.add Rat.mul Rat.sub Rat.inv Rat.ofScientific

/-! ## xorshift32 (message-pool.js lines 19-28, identical copy in
simulation-engine and synthetic-people) -/

/-- One step of the xorshift32 generator: the body of the closure returned by
`xorshift32(seed)`.  The JS bit operations act on the 32-bit pattern of the
state; the final `>>> 0` reinterprets it as an unsigned 32-bit integer. -/
def xsStep (x : Nat) : Nat :=
  let x1 := (Nat.xor x (x <<< 13)) % 2 ^ 32
  let x2 := Nat.xor x1 (x1 >>> 17)
  (Nat.xor x2 (x2 <<< 5)) % 2 ^ 32

/-- Initial state: `(seed >>> 0) || 0x811c9dc5`. -/
def xsInit (seed : Nat) : Nat :=
  let s := seed % 2 ^ 32
  if s = 0 then 0x811c9dc5 else s

/-- `rnd() < c` for a fraction `c`: the produced float is exactly `x / 2^32`,
so the comparison is `x < c * 2^32` over the rationals (faithful to the
float64 comparison for every constant used by the source, see header). -/
def ltProb (x : Nat) (c : ℚ) : Bool :=
  decide ((x : ℚ) < c * 2 ^ 32)

/-- `Math.floor(rnd() * n)` where `rnd()` returned `x / 2^32` (exact in
float64 for the array sizes used here). -/
def pickIdx (x n : Nat) : Nat := x * n / 2 ^ 32

/-- `Math.round` on a nonnegative-or-negative rational: floor of `q + 1/2`
(JS rounds halves up). -/
def jsRound (q : ℚ) : ℤ := ⌊q + 1 / 2⌋

/-- JS `a || b` for numeric options (`0` and absent both fall through). -/
def jsOrN (a b : Nat) : Nat := if a = 0 then b else a

/-- JS `a || b` for fractional options. -/
def jsOrQ (a b : ℚ) : ℚ := if a = 0 then b else a

/-- JS `a || b` for strings (`""` is falsy). -/
def jsOr (a b : String) : String := if a = "" then b else a

/-! ## Data model -/

/-- A member of `SyntheticPeople.people` (synthetic-people.js); only the
fields the message generator reads, plus `lastActive` for the presence
simulation. -/
structure Person where
  id : String
  name : String
  displayName : String
  role : String
  avatar : String
  lastActive : ℤ
deriving DecidableEq, Repr

/-- `MessagePool.meta` / `DEFAULT` (message-pool.js lines 64-74).
`adminSpeakBoost` is declared in the source but never read. -/
structure Meta where
  size : Nat
  seedBase : Nat
  spanDays : Nat
  minWords : Nat
  maxWords : Nat
  replyFraction : ℚ
  attachmentFraction : ℚ
  pinnedFraction : ℚ
deriving DecidableEq, Repr

/-- The `DEFAULT` record of message-pool.js. -/
def DEFAULT : Meta :=
  { size := 100000, seedBase := 4000, spanDays := 730, minWords := 4,
    maxWords := 28, replyFraction := 6 / 100, attachmentFraction := 4 / 100,
    pinnedFraction := 8 / 10000 }

/-- The options object handed to `_generateMessageForIndex`.  Absent numeric
fields are `0` (JS `opts.x || fallback` treats both alike). -/
structure GenOpts where
  seedBase : Nat := 0
  size : Nat := 0
  spanDays : Nat := 0
  replyFraction : ℚ := 0
  attachmentFraction : ℚ := 0
  pinnedFraction : ℚ := 0
deriving DecidableEq, Repr

/-- One word of a token-salad text: which vocabulary it was drawn from and
the drawn index (`TOKENS` has 14 entries, `EMOJI` 11, the inline word list
12). -/
inductive SaladPart where
  | token (idx : Nat)
  | emoji (idx : Nat)
  | word (idx : Nat)
deriving DecidableEq, Repr

/-- The numeric/categorical environment built in lines 138-148: indices into
`TOKENS`/`INDICATORS`/`TIMEFRAMES`/`ORDERS` and the four raw draws feeding
`price`, `tp`, `stop`, `pct`.  String rendering (template substitution and
locale number formatting) is abstracted: `EnvSpec` retains every datum the
source feeds into the final string. -/
structure EnvSpec where
  tokenIdx : Nat
  indicatorIdx : Nat
  timeframeIdx : Nat
  orderIdx : Nat
  priceDraw : Nat
  tpDraw : Nat
  stopDraw : Nat
  pctDraw : Nat
deriving DecidableEq, Repr

/-- The generated text (lines 150-172), abstracted as the template family
plus all drawn data.  `padded` is the line-197 decorative-emoji append for
texts shorter than 6 characters. -/
inductive MsgText where
  | phrase (tplIdx : Nat) (env : EnvSpec)
  | salad (parts : List SaladPart)
  | tradeCall (senderFirst : String) (env : EnvSpec)
  | question (qIdx : Nat) (env : EnvSpec)
  | padded (base : MsgText) (emojiIdx : Nat)
deriving DecidableEq, Repr

/-- Attachment record (line 210): filename from `ATTACH_TITLES` and the url
(`assets/<file>` for `.png`/`.jpg`/`.jpeg` filenames, else `""`). -/
structure Attachment where
  filename : String
  url : String
deriving DecidableEq, Repr

/-- The message object built at lines 199-211. -/
structure Message where
  id : String
  name : String
  displayName : String
  role : String
  avatar : String
  text : MsgText
  out : Bool
  time : ℤ
  replyTo : Option String
  pinned : Bool
  attachment : Option Attachment
deriving DecidableEq, Repr

/-! ## The per-index generator `_generateMessageForIndex` (lines 122-214)

The function is split into stage functions in source order; each stage
threads the 32-bit PRNG state explicitly (every `rnd()` call is
`xsStep`). -/

/-- The fallback sender object of line 134 (`id`/`lastActive` do not exist
on the JS literal; they are never read for senders). -/
def placeholderSender (i : Nat) : Person :=
  { id := "", name := "Member_" ++ toString (i % 5000 + 1),
    displayName := "Member " ++ toString (i % 5000 + 1),
    role := "VERIFIED", avatar := "", lastActive := 0 }

/-- Lines 128-135: pick the sender from `SyntheticPeople.people` when that
directory is non-empty (consuming one draw), else the placeholder (no
draw).  The model takes the directory contents as the explicit input
`people` in place of the `window` global. -/
def genSender (people : List Person) (i : Nat) (s : Nat) : Person × Nat :=
  if people.length ≠ 0 then
    let s1 := xsStep s
    (people.getD (pickIdx s1 people.length) (placeholderSender i), s1)
  else
    (placeholderSender i, s)

/-- Lines 138-148: the categorical picks (`TOKENS` 14, `INDICATORS` 8,
`TIMEFRAMES` 7, `ORDERS` 7 entries) and the four numeric draws
(`randPriceForToken` jitter, `tp`, `stop`, `pct`). -/
def genEnv (s : Nat) : EnvSpec × Nat :=
  let s1 := xsStep s
  let s2 := xsStep s1
  let s3 := xsStep s2
  let s4 := xsStep s3
  let s5 := xsStep s4
  let s6 := xsStep s5
  let s7 := xsStep s6
  let s8 := xsStep s7
  ({ tokenIdx := pickIdx s1 14, indicatorIdx := pickIdx s2 8,
     timeframeIdx := pickIdx s3 7, orderIdx := pickIdx s4 7,
     priceDraw := s5, tpDraw := s6, stopDraw := s7, pctDraw := s8 }, s8)

/-- Lines 158-165: the token-salad word loop.  Per word: one draw for the
`< 0.13` test (token branch: one more draw to pick from `TOKENS`),
otherwise one draw for the `< 0.11` test (emoji branch: one draw to pick
from `EMOJI`; word branch: one draw to pick from the 12-entry word
list). -/
def saladParts (n : Nat) (s : Nat) : List SaladPart × Nat :=
  match n with
  | 0 => ([], s)
  | Nat.succ m =>
    let c1 := xsStep s
    if ltProb c1 (13 / 100) then
      let p := xsStep c1
      let rest := saladParts m p
      (SaladPart.token (pickIdx p 14) :: rest.1, rest.2)
    else
      let c2 := xsStep c1
      if ltProb c2 (11 / 100) then
        let p := xsStep c2
        let rest := saladParts m p
        (SaladPart.emoji (pickIdx p 11) :: rest.1, rest.2)
      else
        let p := xsStep c2
        let rest := saladParts m p
        (SaladPart.word (pickIdx p 12) :: rest.1, rest.2)

/-- JS `split` on a single space, first element. -/
def firstWord (s : String) : String := (s.splitOn " ").headD ""

/-- Lines 150-172: template-family selection.  One draw `tPick` is compared
against `0.42` / `0.72` / `0.87`; the chosen branch then consumes its own
draws (`COMMON_PHRASES` has 20 entries, the question list 4; the
trade-call branch consumes none). -/
def genTextPart (meta : Meta) (sender : Person) (env : EnvSpec) (s : Nat) :
    MsgText × Nat :=
  let tPick := xsStep s
  if ltProb tPick (42 / 100) then
    let p := xsStep tPick
    (MsgText.phrase (pickIdx p 20) env, p)
  else if ltProb tPick (72 / 100) then
    let w := xsStep tPick
    let words := meta.minWords + pickIdx w (meta.maxWords - meta.minWords)
    let rest := saladParts words w
    (MsgText.salad rest.1, rest.2)
  else if ltProb tPick (87 / 100) then
    (MsgText.tradeCall (firstWord (jsOr sender.displayName sender.name)) env,
      tPick)
  else
    let q := xsStep tPick
    (MsgText.question (pickIdx q 4) env, q)

/-- The `/\.(png|jpe?g)$/i` test of line 210, on the (all-lowercase)
`ATTACH_TITLES` entries. -/
def isImageName (s : String) : Bool :=
  s.endsWith ".png" || s.endsWith ".jpg" || s.endsWith ".jpeg"

/-- `ATTACH_TITLES` (line 60). -/
def ATTACH_TITLES : List String :=
  ["chart.png", "screenshot.jpg", "trade.mp4", "report.pdf", "indicator.png"]

/-- Lines 174-176 and 210: one draw decides attachment presence against the
effective attachment fraction; if present one more draw picks the
filename, and the url is `assets/<file>` for image filenames, else `""`. -/
def genAttachment (frac : ℚ) (s : Nat) : Option Attachment × Nat :=
  let a := xsStep s
  if ltProb a frac then
    let f := xsStep a
    let fn := ATTACH_TITLES.getD (pickIdx f 5) ""
    (some { filename := fn, url := if isImageName fn then "assets/" ++ fn else "" }, f)
  else
    (none, a)

/-- Lines 178-184: one draw decides `isReply` against the effective reply
fraction; when it fires and `i > 8` one more draw yields
`offset = 2 + floor(rnd() * min(500, i - 2))` and
`replyTo` is the string `msg_` followed by `i - offset`. -/
def genReply (frac : ℚ) (i : Nat) (s : Nat) : Option String × Nat :=
  let r := xsStep s
  if ltProb r frac ∧ 8 < i then
    let o := xsStep r
    let offset := 2 + pickIdx o (min 500 (i - 2))
    (some ("msg_" ++ toString (i - offset)), o)
  else
    (none, r)

/-- Lines 186-187: one draw against the effective pinned fraction. -/
def genPinned (frac : ℚ) (s : Nat) : Bool × Nat :=
  let p := xsStep s
  (ltProb p frac, p)

/-- Lines 189-195: the timestamp.  `frac = i / max(1, size)`,
`earliest = now - spanDays*86400000`, jitter `(rnd() - 0.5) * 3600000`,
rounded.  Exact rational arithmetic; see the header note on float64. -/
def genTime (now : ℤ) (spanDays size i : Nat) (s : Nat) : ℤ × Nat :=
  let j := xsStep s
  let S : ℚ := (spanDays : ℚ) * 86400000
  let frac : ℚ := (i : ℚ) / (max 1 size : ℚ)
  (jsRound ((now : ℚ) - S + frac * S + ((j : ℚ) / 2 ^ 32 - 1 / 2) * 3600000), j)

/-- Line 197: when `text.length < 6`, a space and a drawn emoji are appended.
The JS check is on the rendered string.  Every text the generator can
build has length at least 6 — each phrase/trade-call/question template
contains at least 6 literal characters, and a salad of `n ≥ minWords = 4`
parts (each at least one character, space-joined) has length
`≥ 2n - 1 ≥ 7` — so the only shape whose length bound can drop below 6 is
a salad of fewer than 4 parts, which `textShort` tests. -/
def textShort : MsgText → Bool
  | MsgText.salad parts => parts.length < 4
  | _ => false

def padShort (t : MsgText) (s : Nat) : MsgText × Nat :=
  if textShort t then
    let e := xsStep s
    (MsgText.padded t (pickIdx e 11), e)
  else
    (t, s)

/-- `_generateMessageForIndex(i, opts)` (lines 122-214), with the ambient
state (`this.meta`, `window.SyntheticPeople.people`, `Date.now()`) passed
explicitly. -/
def generateMessageForIndex (people : List Person) (meta : Meta) (now : ℤ)
    (i : Nat) (opts : GenOpts) : Message :=
  let seedBase := jsOrN opts.seedBase (jsOrN meta.seedBase DEFAULT.seedBase)
  let s0 := xsInit (seedBase + i * 15721)
  let sd := genSender people i s0
  let ev := genEnv sd.2
  let tx := genTextPart meta sd.1 ev.1 ev.2
  let att := genAttachment (jsOrQ opts.attachmentFraction meta.attachmentFraction) tx.2
  let rp := genReply (jsOrQ opts.replyFraction meta.replyFraction) i att.2
  let pin := genPinned (jsOrQ opts.pinnedFraction meta.pinnedFraction) rp.2
  let spanDays := jsOrN opts.spanDays (jsOrN meta.spanDays DEFAULT.spanDays)
  let size := jsOrN opts.size (jsOrN meta.size DEFAULT.size)
  let tm := genTime now spanDays size i pin.2
  let tx' := padShort tx.1 tm.2
  { id := "msg_" ++ toString (i + 1),
    name := jsOr sd.1.name (jsOr sd.1.displayName ("Member_" ++ toString (i % 5000 + 1))),
    displayName := jsOr sd.1.displayName sd.1.name,
    role := jsOr sd.1.role "VERIFIED",
    avatar := jsOr sd.1.avatar "",
    text := tx'.1,
    out := false,
    time := tm.1,
    replyTo := rp.1,
    pinned := pin.1,
    attachment := att.1 }

/-! ## `MessagePool.generatePool` (lines 217-248)

`clamp(v, 50, 500000)` bounds the size; `meta.size/seedBase/spanDays` are
updated; each entry is `_generateMessageForIndex(i, { size, seedBase,
spanDays, replyFraction: this.meta.replyFraction, attachmentFraction:
this.meta.attachmentFraction })` — note the source forwards the *meta*
fractions, not `opts.replyFraction`.

The LRU text-dedupe loop (lines 227-240) rewrites only the `text` field of
an entry whose content hash collides with one of the 2048 most recent
hashes; it never touches `id`, sender fields, `time`, `replyTo`, `pinned`
or `attachment`, and never changes the array length.  The model returns
the entries as generated; every pool-level claim below concerns only
fields the dedupe loop cannot change. -/

/-- `clamp(v, a, b) = Math.max(a, Math.min(b, v))` (line 30). -/
def clamp (v a b : Nat) : Nat := max a (min b v)

/-- The messages array and updated meta produced by `generatePool(opts)`. -/
def generatePool (people : List Person) (meta : Meta) (now : ℤ)
    (opts : GenOpts) : List Message × Meta :=
  let size := clamp (jsOrN opts.size (jsOrN meta.size DEFAULT.size)) 50 500000
  let seedBase := jsOrN opts.seedBase (jsOrN meta.seedBase DEFAULT.seedBase)
  let spanDays := jsOrN opts.spanDays (jsOrN meta.spanDays DEFAULT.spanDays)
  let meta' := { meta with size := size, seedBase := seedBase, spanDays := spanDays }
  ((List.range size).map (fun i =>
      generateMessageForIndex people meta' now i
        { size := size, seedBase := seedBase, spanDays := spanDays,
          replyFraction := meta'.replyFraction,
          attachmentFraction := meta'.attachmentFraction }),
   meta')

/-! ## `MessagePool.createGeneratorView` (lines 323-406)

The view closes over `pageSize`, `seedBase`, `spanDays`, `allowWrap` and
`totalSize` (resolved at creation: the length of the materialized pool if one
exists, else `meta.size` if truthy, else null).  The page cache only ever
stores pages computed by `makePage`, which is a pure function of the same
inputs, so a cache hit returns exactly what a recomputation would; the
model is therefore cache-free (LRU eviction changes which pages are
cached, never their contents). -/

/-- The values `createGeneratorView` closes over. -/
structure ViewCfg where
  pageSize : Nat
  seedBase : Nat
  spanDays : Nat
  allowWrap : Bool
  totalSize : Option Nat
deriving DecidableEq, Repr

instance : Inhabited MsgText := ⟨MsgText.salad []⟩

instance : Inhabited Message :=
  ⟨{ id := "", name := "", displayName := "", role := "", avatar := "",
     text := default, out := false, time := 0, replyTo := none,
     pinned := false, attachment := none }⟩

/-- `genMessageAt(index)` (lines 348-357): wrap or reject an out-of-range
index, serve from the materialized pool when it covers the index, else
generate on demand with `{ size: totalSize || undefined, seedBase,
spanDays }`. -/
def genMessageAt (cfg : ViewCfg) (backing : List Message)
    (people : List Person) (meta : Meta) (now : ℤ) (index : Nat) :
    Option Message :=
  let gen := fun idx =>
    if backing.length ≠ 0 ∧ idx < backing.length then backing.getD idx default
    else
      generateMessageForIndex people meta now idx
        { size := (cfg.totalSize).getD 0, seedBase := cfg.seedBase,
          spanDays := cfg.spanDays }
  match cfg.totalSize with
  | some T =>
    if index ≥ T then
      if cfg.allowWrap then some (gen (index % T)) else none
    else some (gen index)
  | none => some (gen index)

/-- The loop body of `makePage` (lines 365-377): build up to `rem` more
entries starting at offset `i` from `start`, stopping early when an index
overruns a known `totalSize` without wrap or when `genMessageAt` yields
nothing. -/
def makePageGo (cfg : ViewCfg) (backing : List Message) (people : List Person)
    (meta : Meta) (now : ℤ) (start : Nat) : Nat → Nat → List Message
  | 0, _ => []
  | Nat.succ rem, i =>
    let idx := start + i
    let wrapped :=
      match cfg.totalSize with
      | some T => if idx ≥ T then (if cfg.allowWrap then some (idx % T) else none) else some idx
      | none => some idx
    match wrapped with
    | none => []
    | some idx' =>
      match genMessageAt cfg backing people meta now idx' with
      | none => []
      | some m => m :: makePageGo cfg backing people meta now start rem (i + 1)

/-- `makePage(start)` (lines 359-379). -/
def makePage (cfg : ViewCfg) (backing : List Message) (people : List Person)
    (meta : Meta) (now : ℤ) (start : Nat) : List Message :=
  match cfg.totalSize with
  | some T =>
    if start ≥ T then
      if cfg.allowWrap then
        makePageGo cfg backing people meta now (start % T) cfg.pageSize 0
      else []
    else makePageGo cfg backing people meta now start cfg.pageSize 0
  | none => makePageGo cfg backing people meta now start cfg.pageSize 0

/-- `view.get(index)` (lines 384-389): on a cache miss this is
`genMessageAt(index)`; a cache hit returns the same message (see section
comment). -/
def viewGet (cfg : ViewCfg) (backing : List Message) (people : List Person)
    (meta : Meta) (now : ℤ) (index : Nat) : Option Message :=
  genMessageAt cfg backing people meta now index

/-- `view.nextPage(startIndex)` (lines 390-395): snap to the page boundary
and build (or fetch from cache) that page. -/
def nextPage (cfg : ViewCfg) (backing : List Message) (people : List Person)
    (meta : Meta) (now : ℤ) (startIndex : Nat) : List Message :=
  makePage cfg backing people meta now (startIndex / cfg.pageSize * cfg.pageSize)

/-! ## `SimulationEngine` (simulation-engine.js = src/unnamed/part_000)

The mutable module state of the scheduler is `running`, `mainTimer`,
`currentStreamer` and `pageIdx` (lines 43-46).  Timers are modelled by
what they carry: `mainTimer = some c` means an emission step is scheduled
whose cursor stands at `c`; `currentStreamer = some h` means a
`MessagePool.streamToUI` handle was obtained with `h.startIndex` as its
starting index.  `start`/`stop`/`startManualStream`/`startStreamAPI`
follow lines 238-258, 114-185 and 188-219. -/

/-- A `streamToUI` handle, by its requested start index (line 196). -/
structure Streamer where
  startIndex : Nat
deriving DecidableEq, Repr

/-- The mutable state of the scheduler. -/
structure EngState where
  running : Bool
  mainTimer : Option Nat
  currentStreamer : Option Streamer
  pageIdx : Nat
deriving DecidableEq, Repr

/-- The configuration fields `start` dispatches on. -/
structure EngCfg where
  useStreamAPI : Bool
  simulateTypingBeforeSend : Bool
deriving DecidableEq, Repr

/-- The ambient collaborators `start` probes on `window`. -/
structure EngEnv where
  viewAvailable : Bool
  streamToUIAvailable : Bool
deriving DecidableEq, Repr

namespace SimulationEngine

/-- `stop()` (lines 253-258): clear the running flag, cancel the pending
timer, release the streaming handle.  `pageIdx` is not touched. -/
def stop (s : EngState) : EngState :=
  { s with running := false, mainTimer := none, currentStreamer := none }

/-- `startManualStream()` (lines 114-185): bail out if `running` is false
(line 115); bail out clearing `running` if no view can be built (lines
117-121); otherwise schedule the first `emitNext` — the local paging state
(lines 127-129) positions it at the preserved `pageIdx`. -/
def startManualStream (env : EngEnv) (s : EngState) : EngState :=
  if s.running = false then s
  else if ¬env.viewAvailable then { s with running := false }
  else { s with mainTimer := some s.pageIdx }

/-- `startStreamAPI()` (lines 188-219): fall back to the manual stream when
`streamToUI` is unavailable, else obtain a streaming handle starting at
`pageIdx || 0`. -/
def startStreamAPI (env : EngEnv) (s : EngState) : EngState :=
  if ¬env.streamToUIAvailable then startManualStream env s
  else { s with currentStreamer := some { startIndex := s.pageIdx } }

/-- `start()` (lines 238-251): return immediately when already running;
otherwise set `running`, call `this.stop()` (which clears `running`
again), then dispatch on the mode. -/
def start (cfg : EngCfg) (env : EngEnv) (s : EngState) : EngState :=
  if s.running then s
  else
    let s1 := { s with running := true }
    let s2 := stop s1
    if cfg.useStreamAPI ∧ ¬cfg.simulateTypingBeforeSend ∧ env.streamToUIAvailable then
      startStreamAPI env s2
    else
      startManualStream env s2

/-- `isRunning()` (line 260). -/
def isRunning (s : EngState) : Bool := s.running

end SimulationEngine

/-! ## `SyntheticPeople.simulatePresenceStep` (synthetic-people.js, the
third module of src/message.js, lines 520-530)

The step deliberately uses the unseeded `Math.random`; the model takes
that source as an input stream `u : Nat → ℚ` of values in `[0, 1)`,
iteration `k` consuming `u (2*k)` (the index draw) and `u (2*k+1)` (the
recency draw), and `Date.now()` as `now`. -/

/-- `pct = Math.max(0, Math.min(1, Number(opts.percent || 0.01)))`
(line 522). -/
def presencePct (percent : ℚ) : ℚ :=
  max 0 (min 1 (if percent = 0 then 1 / 100 else percent))

/-- `count = Math.max(1, Math.round(this.people.length * pct))`
(line 524). -/
def presenceCount (len : Nat) (percent : ℚ) : Nat :=
  (max 1 (jsRound ((len : ℚ) * presencePct percent))).toNat

/-- One loop iteration (lines 527-528):
`idx = Math.floor(rnd() * len)`; `people[idx].lastActive = Date.now() -
Math.round(Math.random() * 1000 * 60 * 5)`.  For `u1 ∈ [0, 1)` the index
is in range; an out-of-range index would be a JS `TypeError`, modelled as
a no-op (unreachable under the `Math.random` contract). -/
def presenceMutate (ps : List Person) (u1 u2 : ℚ) (now : ℤ) : List Person :=
  let idx := (⌊u1 * (ps.length : ℚ)⌋).toNat
  match ps.get? idx with
  | none => ps
  | some p => ps.set idx { p with lastActive := now - jsRound (u2 * 300000) }

/-- `simulatePresenceStep(opts)` (lines 520-530). -/
def simulatePresenceStep (people : List Person) (percent : ℚ) (u : Nat → ℚ)
    (now : ℤ) : List Person :=
  if people.length = 0 then people
  else
    (List.range (presenceCount people.length percent)).foldl
      (fun ps k => presenceMutate ps (u (2 * k)) (u (2 * k + 1)) now) people

/-! ## Observation functions and concrete instances used by the theorems -/

/-- The four template families of lines 150-172. -/
inductive TemplateFamily where
  | canned
  | tokenSalad
  | tradeCall
  | question
deriving DecidableEq, Repr

/-- Which family a generated text belongs to (the line-197 pad does not
change the family). -/
def familyOf : MsgText → TemplateFamily
  | MsgText.phrase _ _ => TemplateFamily.canned
  | MsgText.salad _ => TemplateFamily.tokenSalad
  | MsgText.tradeCall _ _ => TemplateFamily.tradeCall
  | MsgText.question _ _ => TemplateFamily.question
  | MsgText.padded b _ => familyOf b

/-- A message with its `time` field blanked, for stating what is clock
independent. -/
def eraseTime (m : Message) : Message := { m with time := 0 }

/-- `_generateMessageForIndex` options with a forced reply fraction, used
as concrete instances below. -/
def optsReplyOne : GenOpts :=
  { seedBase := 1, size := 100, spanDays := 730, replyFraction := 1 }

/-- The options of the forced-reply scenario in the spec:
`{size:20, seedBase:1, replyFraction:1.0}`. -/
def optsScenario : GenOpts := { size := 20, seedBase := 1, replyFraction := 1 }

/-- Options for the determinism counterexample. -/
def optsDet : GenOpts := { seedBase := 1, size := 100, spanDays := 1 }

/-- The `DEFAULTS` mode flags of the engine (simulation-engine.js lines 30-31):
stream API preferred but typing simulation on, so `start` takes the
manual-stream path. -/
def engManualCfg : EngCfg := { useStreamAPI := true, simulateTypingBeforeSend := true }

/-- Mode flags under which `start` takes the `streamToUI` path. -/
def engStreamCfg : EngCfg := { useStreamAPI := true, simulateTypingBeforeSend := false }

/-- All collaborators available on `window`. -/
def engEnvFull : EngEnv := { viewAvailable := true, streamToUIAvailable := true }

/-- A freshly loaded engine (lines 43-46). -/
def engIdle : EngState :=
  { running := false, mainTimer := none, currentStreamer := none, pageIdx := 0 }

/-- An engine mid-run: flag set, an emission scheduled, cursor at 3. -/
def engMidRun : EngState :=
  { running := true, mainTimer := some 3, currentStreamer := none, pageIdx := 3 }

/-- A wrapping view over a 3-message pool-less total. -/
def cfgWrap : ViewCfg :=
  { pageSize := 200, seedBase := 1, spanDays := 730, allowWrap := true,
    totalSize := some 3 }

/-- The same view with wrapping disabled. -/
def cfgNoWrap : ViewCfg :=
  { pageSize := 200, seedBase := 1, spanDays := 730, allowWrap := false,
    totalSize := some 3 }

/-- C8 counterexample: a view with `pageSize = 10`, `allowWrap = false` and
`totalSize = 50` returns an empty page — not a page of length
`pageSize` — for `nextPage(55)` (the aligned start 50 overruns the
total). -/
def cfgTrunc : ViewCfg :=
  { pageSize := 10, seedBase := 1, spanDays := 730, allowWrap := false,
    totalSize := some 50 }

/-- Witness for C8 at a concrete truncating view: the aligned page at start
0 of a 1-message no-wrap total has length `min(pageSize, 1)`. -/
def cfgSmall : ViewCfg :=
  { pageSize := 2, seedBase := 1, spanDays := 2, allowWrap := false,
    totalSize := some 1 }

/-- Ten identical directory members, all long inactive. -/
def prPeople : List Person :=
  List.replicate 10
    { id := "p", name := "n", displayName := "d", role := "VERIFIED",
      avatar := "", lastActive := -999999 }

/-- Two directory members for the presence witness. -/
def prPair : List Person :=
  [{ id := "a", name := "a", displayName := "a", role := "VERIFIED",
     avatar := "", lastActive := -7 },
   { id := "b", name := "b", displayName := "b", role := "MOD",
     avatar := "", lastActive := -8 }]

/-- A `Math.random` stream that always returns 0. -/
def uZero : Nat → ℚ := fun _ => 0

/-- "Entry `j` of `res` is entry `j` of `orig`, or that entry with only its
`lastActive` rewritten to a moment in the 5 minutes before `now`." -/
def OrigOrRecent (orig res : List Person) (now : ℤ) : Prop :=
  ∀ j : Nat,
    res.get? j = orig.get? j ∨
    ∃ p t, orig.get? j = some p
      ∧ res.get? j = some { p with lastActive := t }
      ∧ now - 300000 ≤ t ∧ t ≤ now

/-! ## Helper lemmas -/

theorem xsStep_lt (x : Nat) : xsStep x < 2 ^ 32 := by
  unfold xsStep
  exact Nat.mod_lt _ (by norm_num)

theorem pickIdx_lt (x n : Nat) (hx : x < 2 ^ 32) (hn : 0 < n) :
    pickIdx x n < n := by
  unfold pickIdx
  have h : x * n < 2 ^ 32 * n := by
    have := Nat.mul_lt_mul_of_le_of_lt (le_refl n) hx hn
    calc x * n = n * x := Nat.mul_comm _ _
    _ < n * 2 ^ 32 := this
    _ = 2 ^ 32 * n := Nat.mul_comm _ _
  exact Nat.div_lt_of_lt_mul h

theorem ltProb_true_iff (x : Nat) (c : ℚ) :
    ltProb x c = true ↔ (x : ℚ) / 2 ^ 32 < c := by
  unfold ltProb
  rw [decide_eq_true_iff, div_lt_iff₀ (by positivity)]

theorem ltProb_false_iff (x : Nat) (c : ℚ) :
    ltProb x c = false ↔ c ≤ (x : ℚ) / 2 ^ 32 := by
  rw [← not_lt, ← ltProb_true_iff]
  simp

/-- The family returned by `genTextPart` as a function of the single
threshold draw. -/
theorem familyOf_genTextPart (meta : Meta) (sender : Person) (env : EnvSpec)
    (s : Nat) :
    familyOf (genTextPart meta sender env s).1 =
      if ltProb (xsStep s) (42 / 100) then TemplateFamily.canned
      else if ltProb (xsStep s) (72 / 100) then TemplateFamily.tokenSalad
      else if ltProb (xsStep s) (87 / 100) then TemplateFamily.tradeCall
      else TemplateFamily.question := by
  unfold genTextPart
  rcases h1 : ltProb (xsStep s) (42 / 100) with _ | _ <;>
    rcases h2 : ltProb (xsStep s) (72 / 100) with _ | _ <;>
      rcases h3 : ltProb (xsStep s) (87 / 100) with _ | _ <;>
        simp [h1, h2, h3, familyOf]

/-! ## C7 — template-family thresholds -/

/-- C7: template-family selection in per-index generation draws exactly one
float `t` from the per-index stream (the single `xsStep s` that
`genTextPart` compares against all three thresholds) and selects the
canned-phrase family iff `t < 0.42`, token-salad iff `0.42 ≤ t < 0.72`,
the structured trade-call iff `0.72 ≤ t < 0.87`, and the templated
question iff `t ≥ 0.87`; the widths `0.42, 0.30, 0.15, 0.13` are
cumulative probabilities partitioning `[0,1)` (where the drawn `t` always
lies) and summing to `1.0`. -/
theorem templateFamily_thresholds (meta : Meta) (sender : Person)
    (env : EnvSpec) (s : Nat) :
    (0 ≤ (xsStep s : ℚ) / 2 ^ 32 ∧ (xsStep s : ℚ) / 2 ^ 32 < 1)
    ∧ (familyOf (genTextPart meta sender env s).1 = TemplateFamily.canned ↔
        (xsStep s : ℚ) / 2 ^ 32 < 42 / 100)
    ∧ (familyOf (genTextPart meta sender env s).1 = TemplateFamily.tokenSalad ↔
        42 / 100 ≤ (xsStep s : ℚ) / 2 ^ 32 ∧ (xsStep s : ℚ) / 2 ^ 32 < 72 / 100)
    ∧ (familyOf (genTextPart meta sender env s).1 = TemplateFamily.tradeCall ↔
        72 / 100 ≤ (xsStep s : ℚ) / 2 ^ 32 ∧ (xsStep s : ℚ) / 2 ^ 32 < 87 / 100)
    ∧ (familyOf (genTextPart meta sender env s).1 = TemplateFamily.question ↔
        87 / 100 ≤ (xsStep s : ℚ) / 2 ^ 32)
    ∧ (42 / 100 + 30 / 100 + 15 / 100 + 13 / 100 : ℚ) = 1 := by
  have hlt : (xsStep s : ℚ) / 2 ^ 32 < 1 := by
    rw [div_lt_one (by positivity)]
    exact_mod_cast xsStep_lt s
  rw [familyOf_genTextPart]
  refine ⟨⟨by positivity, hlt⟩, ?_, ?_, ?_, ?_, by norm_num⟩ <;>
    rcases h1 : ltProb (xsStep s) (42 / 100) with _ | _ <;>
      rcases h2 : ltProb (xsStep s) (72 / 100) with _ | _ <;>
        rcases h3 : ltProb (xsStep s) (87 / 100) with _ | _ <;>
          simp only [h1, h2, h3, if_true, if_false, Bool.false_eq_true] <;>
            simp only [ltProb_true_iff, ltProb_false_iff] at h1 h2 h3 <;>
              simp <;>
                first
                  | linarith
                  | (constructor <;> linarith)
                  | (rintro ⟨u, v⟩; linarith)
                  | (intro hh; linarith)

/-! ## C4 — reply references -/

/-- Soundness of the line 178-184 reply construction: a produced `replyTo`
implies `i > 8`, and the stored id is `msg_(j+1)` for an index `j` with
`0 ≤ j < i` (under the id scheme of line 200, `msg_(j+1)` is the id of the
message at index `j`). -/
theorem genReply_sound (frac : ℚ) (i s : Nat) (r : String)
    (h : (genReply frac i s).1 = some r) :
    8 < i ∧ ∃ j, j < i ∧ r = "msg_" ++ toString (j + 1) := by
  unfold genReply at h
  by_cases hc : ltProb (xsStep s) frac = true ∧ 8 < i
  · rw [if_pos hc] at h
    have hr : r = "msg_" ++ toString (i - (2 + pickIdx (xsStep (xsStep s)) (min 500 (i - 2)))) := by
      simpa using h.symm
    refine ⟨hc.2, i - (2 + pickIdx (xsStep (xsStep s)) (min 500 (i - 2))) - 1, ?_, ?_⟩
    · omega
    · have hi : 8 < i := hc.2
      have hm : 0 < min 500 (i - 2) := by omega
      have hlt := pickIdx_lt (xsStep (xsStep s)) (min 500 (i - 2))
        (xsStep_lt (xsStep s)) hm
      have : i - (2 + pickIdx (xsStep (xsStep s)) (min 500 (i - 2))) - 1 + 1
          = i - (2 + pickIdx (xsStep (xsStep s)) (min 500 (i - 2))) := by omega
      rw [hr, this]
  · rw [if_neg hc] at h
    simp at h

/-- C4: for every generated message, a non-null `replyTo` implies the
own index of the message exceeds 8 and the stored id is `msg_(j+1)` — the id of
the message at index `j` under the line-200 scheme — for some index `j`
strictly below its own. -/
theorem generated_replyTo_targets_earlier_index (people : List Person)
    (meta : Meta) (now : ℤ) (i : Nat) (opts : GenOpts) (r : String)
    (h : (generateMessageForIndex people meta now i opts).replyTo = some r) :
    8 < i ∧ ∃ j, j < i ∧ r = "msg_" ++ toString (j + 1) :=
  genReply_sound (jsOrQ opts.replyFraction meta.replyFraction) i _ r h

/-- Witness for C4 at a concrete input where the reply draw fires. -/
theorem generated_replyTo_targets_earlier_index_witness :
    (generateMessageForIndex [] DEFAULT 0 9 optsReplyOne).replyTo = some "msg_6"
    ∧ (8 < 9 ∧ ∃ j, j < 9 ∧ "msg_6" = "msg_" ++ toString (j + 1)) :=
  ⟨by decide,
   generated_replyTo_targets_earlier_index [] DEFAULT 0 9 optsReplyOne "msg_6"
     (by decide)⟩

/-! ## C1 — determinism of `_generateMessageForIndex` -/

/-- C1 counterexample: with identical index, identical generation
parameters, no directory and a fresh cache, two calls that observe
different `Date.now()` values (line 190) return different `Message`
objects — the `time` field is anchored at the observing clock. -/
theorem generate_differs_across_clocks :
    generateMessageForIndex [] DEFAULT 0 0 optsDet
      ≠ generateMessageForIndex [] DEFAULT 86400000 0 optsDet := by
  decide

/-- C1 amended: for fixed `(i, opts)`, a fixed people directory and a fixed
meta record, every field except `time` is independent of the `Date.now()`
reading; equivalently, the generator is a pure function of
`(people, meta, now, i, opts)`, deterministic in all fields once the clock
reading is also fixed. -/
theorem generate_deterministic_except_time (people : List Person)
    (meta : Meta) (i : Nat) (opts : GenOpts) (now₁ now₂ : ℤ) :
    eraseTime (generateMessageForIndex people meta now₁ i opts)
      = eraseTime (generateMessageForIndex people meta now₂ i opts) := by
  rfl

/-! ## C2 — `start()` never reaches the Running state -/

/-- C2 (code bug): under the default mode flags (`useStreamAPI: true`,
`simulateTypingBeforeSend: true` ⇒ manual-stream path) and with a
MessagePool view available, `start()` on an Idle engine leaves the engine
exactly as it was — `running` stays false and no emission is scheduled —
because line 240 sets `running = true` and the `this.stop()` of line 242
immediately resets it, so `startManualStream` returns at its line-115
guard.  Moreover `start()` on a Running engine returns at the line-239
guard without stopping the timer of the previous run. -/
theorem start_is_a_no_op :
    SimulationEngine.start engManualCfg engEnvFull engIdle = engIdle
    ∧ SimulationEngine.isRunning
        (SimulationEngine.start engManualCfg engEnvFull engIdle) = false
    ∧ (SimulationEngine.start engManualCfg engEnvFull engIdle).mainTimer = none
    ∧ SimulationEngine.start engManualCfg engEnvFull engMidRun = engMidRun := by
  decide

/-! ## C6 — `stop()` -/

/-- C6 counterexample: after `stop()` on a mid-run engine (cursor 3), a
subsequent `start()` under the default manual-stream mode schedules no
emission at all (no timer, no streaming handle, `running` false) — it does
not resume emission from the preserved cursor as the claim states. -/
theorem stop_then_start_does_not_resume :
    (SimulationEngine.start engManualCfg engEnvFull
        (SimulationEngine.stop engMidRun)).mainTimer = none
    ∧ (SimulationEngine.start engManualCfg engEnvFull
        (SimulationEngine.stop engMidRun)).currentStreamer = none
    ∧ (SimulationEngine.start engManualCfg engEnvFull
        (SimulationEngine.stop engMidRun)).running = false := by
  decide

/-- C6 amended: `stop()` is idempotent, immediately cancels the pending
timer and releases the streaming handle, clears the running flag, and
leaves the cursor `pageIdx` unchanged; in stream-API mode (and only
because that path ignores the broken running flag) a subsequent `start()`
hands the preserved cursor — not index 0 — to `streamToUI` as the resume
position, while in manual mode the `start()` defect of C2 prevents any
emission from being scheduled. -/
theorem stop_idempotent_cancels_and_preserves_cursor (s : EngState)
    (cfg : EngCfg) (env : EngEnv) :
    SimulationEngine.stop (SimulationEngine.stop s) = SimulationEngine.stop s
    ∧ (SimulationEngine.stop s).mainTimer = none
    ∧ (SimulationEngine.stop s).currentStreamer = none
    ∧ (SimulationEngine.stop s).running = false
    ∧ (SimulationEngine.stop s).pageIdx = s.pageIdx
    ∧ (cfg.useStreamAPI = true → cfg.simulateTypingBeforeSend = false →
        env.streamToUIAvailable = true →
        (SimulationEngine.start cfg env (SimulationEngine.stop s)).currentStreamer
          = some { startIndex := s.pageIdx }) := by
  refine ⟨rfl, rfl, rfl, rfl, rfl, ?_⟩
  intro h1 h2 h3
  simp [SimulationEngine.start, SimulationEngine.stop,
    SimulationEngine.startStreamAPI, h1, h2, h3]

/-- Witness for C6 at a concrete mid-run state in stream-API mode. -/
theorem stop_idempotent_cancels_and_preserves_cursor_witness :
    (SimulationEngine.start engStreamCfg engEnvFull
        (SimulationEngine.stop engMidRun)).currentStreamer
      = some { startIndex := 3 } :=
  (stop_idempotent_cancels_and_preserves_cursor engMidRun engStreamCfg
    engEnvFull).2.2.2.2.2 rfl rfl rfl

/-! ## C3 — the forced-reply scenario -/

/-- C3 (code bug): `generatePool({size:20, seedBase:1, replyFraction:1.0})`
does not force replies.  Line 231 forwards `this.meta.replyFraction`
(0.06) instead of `opts.replyFraction`, so the scenario value `replyFraction:
1.0` is ignored: the pool entry at index 10 (> 8) has `replyTo` null.
Had the option been forwarded — second conjunct, the same call with
`replyFraction: 1.0` — that entry would reply (to `msg_8`). -/
theorem generatePool_ignores_replyFraction :
    ((generatePool [] DEFAULT 0 optsScenario).1.getD 10 default).replyTo = none
    ∧ (generateMessageForIndex []
        { DEFAULT with size := 50, seedBase := 1, spanDays := 730 } 0 10
        { size := 50, seedBase := 1, spanDays := 730, replyFraction := 1,
          attachmentFraction := DEFAULT.attachmentFraction }).replyTo
      = some "msg_8" := by
  decide

/-! ## C10 — pool size clamping -/

/-- C10: for every `generatePool(opts)` call with a positive requested
size, the size is clamped into `[50, 500000]` and the resulting messages
array has length `min(500000, max(50, requestedSize))`. -/
theorem generatePool_length_clamped (people : List Person) (meta : Meta)
    (now : ℤ) (opts : GenOpts) (s : Nat) (hs : opts.size = s) (h0 : 0 < s) :
    ((generatePool people meta now opts).1).length
      = min 500000 (max 50 s) := by
  subst hs
  have hne : opts.size ≠ 0 := Nat.pos_iff_ne_zero.mp h0
  simp only [generatePool, List.length_map, List.length_range, clamp, jsOrN,
    if_neg hne]
  omega

/-- Witness for C10: a request of size 20 produces a pool of 50 messages. -/
theorem generatePool_length_clamped_witness :
    ((generatePool [] DEFAULT 0 optsScenario).1).length
      = min 500000 (max 50 20) :=
  generatePool_length_clamped [] DEFAULT 0 optsScenario 20 rfl (by decide)

/-! ## C5 — wrap boundary of the generator view -/

/-- C5: for a generator view with a known positive `totalSize = T`,
`get(T)` equals `get(0)` when `allowWrap` is on (indices map via modulo,
lines 350-352), and `get(T)` is null when `allowWrap` is off. -/
theorem viewGet_wrap_boundary (cfg : ViewCfg) (backing : List Message)
    (people : List Person) (meta : Meta) (now : ℤ) (T : Nat)
    (hT : cfg.totalSize = some T) (hpos : 0 < T) :
    (cfg.allowWrap = true →
      viewGet cfg backing people meta now T
        = viewGet cfg backing people meta now 0)
    ∧ (cfg.allowWrap = false →
      viewGet cfg backing people meta now T = none) := by
  have h0 : ¬0 ≥ T := by omega
  constructor <;> intro hw <;>
    simp [viewGet, genMessageAt, hT, hw, le_refl, Nat.mod_self, h0]

/-- Witness for C5 at `T = 3`, in both wrap modes. -/
theorem viewGet_wrap_boundary_witness :
    viewGet cfgWrap [] [] DEFAULT 0 3 = viewGet cfgWrap [] [] DEFAULT 0 0
    ∧ viewGet cfgNoWrap [] [] DEFAULT 0 3 = none :=
  ⟨(viewGet_wrap_boundary cfgWrap [] [] DEFAULT 0 3 rfl (by decide)).1 rfl,
   (viewGet_wrap_boundary cfgNoWrap [] [] DEFAULT 0 3 rfl (by decide)).2 rfl⟩

/-! ## C8 — page shape of `nextPage` -/

theorem genMessageAt_of_lt (cfg : ViewCfg) (backing : List Message)
    (people : List Person) (meta : Meta) (now : ℤ) (T idx : Nat)
    (hT : cfg.totalSize = some T) (h : idx < T) :
    ∃ m, genMessageAt cfg backing people meta now idx = some m := by
  unfold genMessageAt
  rw [hT]
  simp [Nat.not_le.mpr h]

theorem genMessageAt_isSome_of_wrap (cfg : ViewCfg) (backing : List Message)
    (people : List Person) (meta : Meta) (now : ℤ) (idx : Nat)
    (hw : cfg.allowWrap = true) :
    ∃ m, genMessageAt cfg backing people meta now idx = some m := by
  unfold genMessageAt
  cases hT : cfg.totalSize with
  | none => simp
  | some T =>
    by_cases h : idx ≥ T
    · simp [h, hw]
    · simp [h]

theorem genMessageAt_isSome_of_none (cfg : ViewCfg) (backing : List Message)
    (people : List Person) (meta : Meta) (now : ℤ) (idx : Nat)
    (hT : cfg.totalSize = none) :
    ∃ m, genMessageAt cfg backing people meta now idx = some m := by
  unfold genMessageAt
  rw [hT]
  simp

/-- With wrap on, `genMessageAt` is insensitive to reduction mod a known
total size. -/
theorem genMessageAt_mod (cfg : ViewCfg) (backing : List Message)
    (people : List Person) (meta : Meta) (now : ℤ) (T idx : Nat)
    (hT : cfg.totalSize = some T) (hw : cfg.allowWrap = true) :
    genMessageAt cfg backing people meta now (idx % T)
      = genMessageAt cfg backing people meta now idx := by
  rcases Nat.eq_zero_or_pos T with h0 | hpos
  · subst h0
    rw [Nat.mod_zero]
  · unfold genMessageAt
    rw [hT]
    by_cases h : idx ≥ T
    · have h1 : idx % T < T := Nat.mod_lt idx hpos
      simp [h, hw, Nat.not_le.mpr h1, Nat.mod_eq_of_lt h1]
    · have h2 : idx < T := Nat.lt_of_not_le h
      simp [h, Nat.mod_eq_of_lt h2]

theorem makePageGo_length_le (cfg : ViewCfg) (backing : List Message)
    (people : List Person) (meta : Meta) (now : ℤ) (start : Nat) :
    ∀ rem i, (makePageGo cfg backing people meta now start rem i).length ≤ rem := by
  intro rem
  induction rem with
  | zero => intro i; simp [makePageGo]
  | succ n ih =>
    intro i
    simp only [makePageGo]
    split
    · simp
    · split
      · simp
      · simpa using ih (i + 1)

theorem makePageGo_length_of_none (cfg : ViewCfg) (backing : List Message)
    (people : List Person) (meta : Meta) (now : ℤ) (start : Nat)
    (hT : cfg.totalSize = none) :
    ∀ rem i, (makePageGo cfg backing people meta now start rem i).length = rem := by
  intro rem
  induction rem with
  | zero => intro i; simp [makePageGo]
  | succ n ih =>
    intro i
    obtain ⟨m, hm⟩ := genMessageAt_isSome_of_none cfg backing people meta now
      (start + i) hT
    simp only [makePageGo, hT, hm]
    simpa using ih (i + 1)

theorem makePageGo_length_of_wrap (cfg : ViewCfg) (backing : List Message)
    (people : List Person) (meta : Meta) (now : ℤ) (start : Nat) (T : Nat)
    (hT : cfg.totalSize = some T) (hw : cfg.allowWrap = true) :
    ∀ rem i, (makePageGo cfg backing people meta now start rem i).length = rem := by
  intro rem
  induction rem with
  | zero => intro i; simp [makePageGo]
  | succ n ih =>
    intro i
    by_cases h : start + i ≥ T
    · obtain ⟨m, hm⟩ := genMessageAt_isSome_of_wrap cfg backing people meta now
        ((start + i) % T) hw
      simp only [makePageGo, hT, hw, if_pos h, if_true]
      rw [hm]
      simpa using ih (i + 1)
    · obtain ⟨m, hm⟩ := genMessageAt_isSome_of_wrap cfg backing people meta now
        (start + i) hw
      simp only [makePageGo, hT]
      simp only [if_neg h]
      rw [hm]
      simpa using ih (i + 1)

theorem makePageGo_length_of_nowrap (cfg : ViewCfg) (backing : List Message)
    (people : List Person) (meta : Meta) (now : ℤ) (start : Nat) (T : Nat)
    (hT : cfg.totalSize = some T) (hw : cfg.allowWrap = false) :
    ∀ rem i, (makePageGo cfg backing people meta now start rem i).length
      = min rem (T - (start + i)) := by
  intro rem
  induction rem with
  | zero => intro i; simp [makePageGo]
  | succ n ih =>
    intro i
    by_cases h : start + i ≥ T
    · simp only [makePageGo, hT, if_pos h, hw]
      simp
      omega
    · have hlt : start + i < T := Nat.lt_of_not_le h
      obtain ⟨m, hm⟩ := genMessageAt_of_lt cfg backing people meta now T
        (start + i) hT hlt
      simp only [makePageGo, hT, if_neg h, hm]
      have := ih (i + 1)
      simp only [List.length_cons, this]
      omega

/-- The first entry of a non-trivial `makePage` loop run is exactly what
`genMessageAt` yields at its starting index (the loop and `genMessageAt`
wrap an out-of-range index the same way). -/
theorem makePageGo_head (cfg : ViewCfg) (backing : List Message)
    (people : List Person) (meta : Meta) (now : ℤ) (start rem i : Nat) :
    (makePageGo cfg backing people meta now start (rem + 1) i).head?
      = genMessageAt cfg backing people meta now (start + i) := by
  cases hT : cfg.totalSize with
  | none =>
    obtain ⟨mm, hm⟩ := genMessageAt_isSome_of_none cfg backing people meta now
      (start + i) hT
    simp only [makePageGo, hT]
    rw [hm]
    simp
  | some T =>
    by_cases h : start + i ≥ T
    · by_cases hw : cfg.allowWrap = true
      · obtain ⟨mm, hm⟩ := genMessageAt_isSome_of_wrap cfg backing people meta
          now ((start + i) % T) hw
        simp only [makePageGo, hT, hw, if_pos h, if_true]
        rw [hm]
        rw [← genMessageAt_mod cfg backing people meta now T (start + i) hT hw]
        rw [hm]
        simp
      · have hw' : cfg.allowWrap = false := by
          cases hcw : cfg.allowWrap
          · rfl
          · exact absurd hcw hw
        simp only [makePageGo, hT, hw', if_pos h]
        unfold genMessageAt
        rw [hT]
        simp [h, hw']
    · simp only [makePageGo, hT, if_neg h]
      cases hg : genMessageAt cfg backing people meta now (start + i) with
      | none => simp
      | some mm => simp

theorem makePage_length_le (cfg : ViewCfg) (backing : List Message)
    (people : List Person) (meta : Meta) (now : ℤ) (start : Nat) :
    (makePage cfg backing people meta now start).length ≤ cfg.pageSize := by
  unfold makePage
  cases hT : cfg.totalSize with
  | none => exact makePageGo_length_le cfg backing people meta now start _ _
  | some T =>
    by_cases h : start ≥ T
    · by_cases hw : cfg.allowWrap = true
      · simp only [if_pos h, hw, if_true]
        exact makePageGo_length_le cfg backing people meta now _ _ _
      · have hw' : cfg.allowWrap = false := by
          cases hcw : cfg.allowWrap
          · rfl
          · exact absurd hcw hw
        simp [if_pos h, hw']
    · simp only [if_neg h]
      exact makePageGo_length_le cfg backing people meta now start _ _

theorem makePage_head (cfg : ViewCfg) (backing : List Message)
    (people : List Person) (meta : Meta) (now : ℤ) (start : Nat)
    (hne : makePage cfg backing people meta now start ≠ []) :
    (makePage cfg backing people meta now start).head?
      = genMessageAt cfg backing people meta now start := by
  cases hps : cfg.pageSize with
  | zero =>
    exfalso
    apply hne
    unfold makePage
    cases hT : cfg.totalSize with
    | none => simp [hps, makePageGo]
    | some T =>
      by_cases h : start ≥ T
      · by_cases hw : cfg.allowWrap = true
        · simp [h, hw, hps, makePageGo]
        · have hw' : cfg.allowWrap = false := by
            cases hcw : cfg.allowWrap
            · rfl
            · exact absurd hcw hw
          simp [h, hw']
      · simp [h, hps, makePageGo]
  | succ n =>
    unfold makePage
    cases hT : cfg.totalSize with
    | none =>
      rw [hps]
      rw [makePageGo_head cfg backing people meta now start n 0, Nat.add_zero]
    | some T =>
      by_cases h : start ≥ T
      · by_cases hw : cfg.allowWrap = true
        · simp only [if_pos h, hw, if_true, hps]
          rw [makePageGo_head cfg backing people meta now (start % T) n 0,
            Nat.add_zero]
          exact genMessageAt_mod cfg backing people meta now T start hT hw
        · exfalso
          apply hne
          have hw' : cfg.allowWrap = false := by
            cases hcw : cfg.allowWrap
            · rfl
            · exact absurd hcw hw
          unfold makePage
          simp [hT, h, hw']
      · simp only [if_neg h, hps]
        rw [makePageGo_head cfg backing people meta now start n 0, Nat.add_zero]

theorem nextPage_not_always_pageSize :
    (nextPage cfgTrunc [] [] DEFAULT 0 55).length ≠ cfgTrunc.pageSize := by
  decide

/-- C8 amended: `nextPage(startIndex)` always snaps to
`floor(startIndex/pageSize)*pageSize` (arbitrary offsets are never
preserved) and returns an ordered page whose first element, when the page
is non-empty, is the message at the aligned index; the page has length
`pageSize` when no total size is known or `allowWrap` is on, and is
truncated to `min(pageSize, totalSize - alignedStart)` — possibly
empty — when `allowWrap` is off and the aligned page overruns the known
`totalSize`; in every case the length is at most `pageSize`. -/
theorem nextPage_snaps_to_page_boundary (cfg : ViewCfg)
    (backing : List Message) (people : List Person) (meta : Meta) (now : ℤ)
    (start : Nat) :
    nextPage cfg backing people meta now start
      = makePage cfg backing people meta now (start / cfg.pageSize * cfg.pageSize)
    ∧ (nextPage cfg backing people meta now start).length ≤ cfg.pageSize
    ∧ (nextPage cfg backing people meta now start ≠ [] →
        (nextPage cfg backing people meta now start).head?
          = viewGet cfg backing people meta now (start / cfg.pageSize * cfg.pageSize))
    ∧ (cfg.totalSize = none →
        (nextPage cfg backing people meta now start).length = cfg.pageSize)
    ∧ (∀ T, cfg.totalSize = some T →
        (cfg.allowWrap = true →
          (nextPage cfg backing people meta now start).length = cfg.pageSize)
        ∧ (cfg.allowWrap = false →
          (nextPage cfg backing people meta now start).length
            = min cfg.pageSize (T - start / cfg.pageSize * cfg.pageSize))) := by
  refine ⟨rfl, makePage_length_le cfg backing people meta now _, ?_, ?_, ?_⟩
  · intro hne
    exact makePage_head cfg backing people meta now _ hne
  · intro hT
    unfold nextPage makePage
    rw [hT]
    exact makePageGo_length_of_none cfg backing people meta now _ hT
      cfg.pageSize 0
  · intro T hT
    constructor
    · intro hw
      unfold nextPage makePage
      rw [hT]
      by_cases h : start / cfg.pageSize * cfg.pageSize ≥ T
      · simp only [if_pos h, hw, if_true]
        exact makePageGo_length_of_wrap cfg backing people meta now _ T hT hw
          cfg.pageSize 0
      · simp only [if_neg h]
        exact makePageGo_length_of_wrap cfg backing people meta now _ T hT hw
          cfg.pageSize 0
    · intro hw
      unfold nextPage makePage
      rw [hT]
      by_cases h : start / cfg.pageSize * cfg.pageSize ≥ T
      · simp only [if_pos h, hw]
        simp
        omega
      · simp only [if_neg h]
        rw [makePageGo_length_of_nowrap cfg backing people meta now _ T hT hw
          cfg.pageSize 0, Nat.add_zero]

theorem nextPage_snaps_to_page_boundary_witness :
    (nextPage cfgSmall [] [] DEFAULT 0 0).length
      = min cfgSmall.pageSize (1 - 0 / cfgSmall.pageSize * cfgSmall.pageSize) :=
  ((nextPage_snaps_to_page_boundary cfgSmall [] [] DEFAULT 0 0).2.2.2.2 1
    rfl).2 rfl

/-! ## C9 — `simulatePresenceStep` -/

/-- C9 counterexample: with 10 people and `percent = 0.01`,
`round(total * percent) = round(0.1) = 0`, so the claimed mutation-subset
size is 0 — yet the step mutates someone, because line 524 takes
`Math.max(1, ...)`. -/
theorem presence_step_size_not_round :
    jsRound ((prPeople.length : ℚ) * presencePct (1 / 100)) = 0
    ∧ simulatePresenceStep prPeople (1 / 100) uZero 0 ≠ prPeople := by
  decide

theorem presenceMutate_length (ps : List Person) (u1 u2 : ℚ) (now : ℤ) :
    (presenceMutate ps u1 u2 now).length = ps.length := by
  unfold presenceMutate
  cases h : ps.get? ((⌊u1 * (ps.length : ℚ)⌋).toNat) with
  | none => simp only [h]
  | some p =>
    simp only [h]
    exact List.length_set ps _ _

theorem presenceMutate_get_ne (ps : List Person) (u1 u2 : ℚ) (now : ℤ)
    (j : Nat) (hj : ¬(⌊u1 * (ps.length : ℚ)⌋).toNat = j) :
    (presenceMutate ps u1 u2 now).get? j = ps.get? j := by
  unfold presenceMutate
  cases h : ps.get? ((⌊u1 * (ps.length : ℚ)⌋).toNat) with
  | none => simp only [h]
  | some p =>
    simp only [h]
    exact List.get?_set_ne _ ps hj

theorem jsRound_nonneg_lt_bounds (v : ℚ) (h0 : 0 ≤ v) (h1 : v < 1) :
    0 ≤ jsRound (v * 300000) ∧ jsRound (v * 300000) ≤ 300000 := by
  unfold jsRound
  constructor
  · apply Int.le_floor.mpr
    push_cast
    nlinarith
  · have hlt : (⌊v * 300000 + 1 / 2⌋ : ℤ) < 300001 := by
      apply Int.floor_lt.mpr
      push_cast
      nlinarith
    omega

theorem presenceMutate_origOrRecent (orig ps : List Person) (now : ℤ)
    (u1 u2 : ℚ) (h0 : 0 ≤ u2) (h1 : u2 < 1)
    (hp : OrigOrRecent orig ps now) :
    OrigOrRecent orig (presenceMutate ps u1 u2 now) now := by
  intro j
  obtain ⟨hrl, hru⟩ := jsRound_nonneg_lt_bounds u2 h0 h1
  unfold presenceMutate
  cases hg : ps.get? ((⌊u1 * (ps.length : ℚ)⌋).toNat) with
  | none =>
    simp only [hg]
    exact hp j
  | some p =>
    simp only [hg]
    by_cases hji : (⌊u1 * (ps.length : ℚ)⌋).toNat = j
    · subst hji
      rw [List.get?_set_eq, hg]
      rcases hp (⌊u1 * (ps.length : ℚ)⌋).toNat with he | ⟨q, t, hoq, hsq, _, _⟩
      · right
        refine ⟨p, now - jsRound (u2 * 300000), ?_, by simp, by omega, by omega⟩
        rw [← he, hg]
      · right
        rw [hsq] at hg
        refine ⟨q, now - jsRound (u2 * 300000), hoq, ?_, by omega, by omega⟩
        have hpq : p = { q with lastActive := t } := by
          injection hg with hh
          exact hh.symm
        subst hpq
        simp
    · rw [List.get?_set_ne _ ps hji]
      exact hp j

theorem presenceFold_length (people : List Person) (u : Nat → ℚ) (now : ℤ) :
    ∀ n, ((List.range n).foldl
        (fun ps k => presenceMutate ps (u (2 * k)) (u (2 * k + 1)) now)
        people).length = people.length := by
  intro n
  induction n with
  | zero => simp
  | succ m ih =>
    rw [List.range_succ, List.foldl_append, List.foldl_cons, List.foldl_nil,
      presenceMutate_length]
    exact ih

theorem presenceFold_origOrRecent (people : List Person) (u : Nat → ℚ)
    (now : ℤ) (hu : ∀ k, 0 ≤ u k ∧ u k < 1) :
    ∀ n, OrigOrRecent people
      ((List.range n).foldl
        (fun ps k => presenceMutate ps (u (2 * k)) (u (2 * k + 1)) now)
        people) now := by
  intro n
  induction n with
  | zero =>
    intro j
    simp
  | succ m ih =>
    rw [List.range_succ, List.foldl_append, List.foldl_cons, List.foldl_nil]
    exact presenceMutate_origOrRecent people _ now _ _
      (hu (2 * m + 1)).1 (hu (2 * m + 1)).2 ih

theorem presenceFold_untouched (people : List Person) (u : Nat → ℚ)
    (now : ℤ) (j : Nat) :
    ∀ n, (∀ k, k < n → ¬j = (⌊u (2 * k) * (people.length : ℚ)⌋).toNat) →
      ((List.range n).foldl
        (fun ps k => presenceMutate ps (u (2 * k)) (u (2 * k + 1)) now)
        people).get? j = people.get? j := by
  intro n
  induction n with
  | zero =>
    intro _
    simp
  | succ m ih =>
    intro h
    rw [List.range_succ, List.foldl_append, List.foldl_cons, List.foldl_nil]
    rw [presenceMutate_get_ne]
    · exact ih (fun k hk => h k (Nat.lt_succ_of_lt hk))
    · rw [presenceFold_length]
      intro hc
      exact h m (Nat.lt_succ_self m) hc.symm

/-- C9 amended: each `simulatePresenceStep(percent)` call performs
`max(1, round(total * percent))` mutation steps — not exactly
`round(total * percent)` — drawing each target index independently (with
replacement, so fewer distinct people may be affected); it never changes
the length of the directory, every entry is either untouched or has only its
`lastActive` moved into the closed 5-minute window `[now - 300000, now]`,
and an entry whose index is never drawn is untouched. -/
theorem simulatePresenceStep_spec (people : List Person) (percent : ℚ)
    (u : Nat → ℚ) (now : ℤ) (hu : ∀ k, 0 ≤ u k ∧ u k < 1) :
    (simulatePresenceStep people percent u now).length = people.length
    ∧ OrigOrRecent people (simulatePresenceStep people percent u now) now
    ∧ (∀ j : Nat,
        (∀ k, k < presenceCount people.length percent →
          ¬j = (⌊u (2 * k) * (people.length : ℚ)⌋).toNat) →
        (simulatePresenceStep people percent u now).get? j
          = people.get? j) := by
  unfold simulatePresenceStep
  by_cases hlen : people.length = 0
  · refine ⟨by simp [hlen], ?_, ?_⟩
    · intro j
      simp [hlen]
    · intro j _
      simp [hlen]
  · simp only [hlen, if_false]
    exact ⟨presenceFold_length people u now _,
      presenceFold_origOrRecent people u now hu _,
      fun j hj => presenceFold_untouched people u now j _ hj⟩

/-- Witness for C9 at a two-person directory with `percent = 1` and the
all-zero random stream. -/
theorem simulatePresenceStep_spec_witness :
    (simulatePresenceStep prPair 1 uZero 0).length = prPair.length :=
  (simulatePresenceStep_spec prPair 1 uZero 0
    (fun _ => ⟨le_refl 0, by norm_num [uZero]⟩)).1
